import Mathlib

/-!
Shallow embedding of the `openjaws` mesh runtime core
(`src/mesh1/protocols/example1/example1-rs/src/lib.rs`).

Conventions of the embedding:
* Rust `u64` / `u8` counters are `Nat`; a `% 2 ^ 64` (resp. `% 256`) is written
  exactly where the Rust arithmetic can wrap (`AtomicU64::fetch_add`,
  `signal.hops += 1`).
* `u64::saturating_sub` and `Instant::duration_since` (which saturates to the
  zero duration when the argument is a later instant, as in
  `now.duration_since(Instant::now())` inside `cleanup`) are `Nat` subtraction,
  which already truncates at zero.
* `DashMap` values are association lists `List (String × β)` with
  replace-or-append insertion; `serde_json::Value` is the `Json` inductive.
* Wall-clock (`now_millis()`) and monotonic (`Instant::now()`) readings are
  explicit `Nat` parameters of each operation.
* Async handler execution (`RheoCell::execute`) is abstracted by an oracle
  `exec : Signal → TraceResult`; `RouteOut.execCount` counts how many times a
  `route` call reaches `execute` (which performs at most one local handler
  invocation). Outbound transport (`rpc_raw`) is abstracted by an oracle
  `transport : String → Signal → TraceResult`.
-/

namespace OpenJaws

/-- Minimal model of `serde_json::Value`. -/
inductive Json where
  | null : Json
  | bool (b : Bool) : Json
  | num (n : Int) : Json
  | str (s : String) : Json
  | arr (elems : List Json) : Json
  | obj (fields : List (String × Json)) : Json

/-- `ErrorCode` from the error system. -/
inductive ErrorCode where
  | NotFound | Timeout | LoopDetected | HandlerError
  | RpcFail | RpcUnreachable | RpcTimeout | CircuitOpen
  | NotReady | ValidationFailed | Unauthorized | RateLimited | Internal
  deriving DecidableEq

/-- The `Display` impl of `ErrorCode` (upper-snake wire strings). -/
def ErrorCode.codeString : ErrorCode → String
  | .NotFound => "NOT_FOUND"
  | .Timeout => "TIMEOUT"
  | .LoopDetected => "LOOP_DETECTED"
  | .HandlerError => "HANDLER_ERROR"
  | .RpcFail => "RPC_FAIL"
  | .RpcUnreachable => "RPC_UNREACHABLE"
  | .RpcTimeout => "RPC_TIMEOUT"
  | .CircuitOpen => "CIRCUIT_OPEN"
  | .NotReady => "NOT_READY"
  | .ValidationFailed => "VALIDATION_FAILED"
  | .Unauthorized => "UNAUTHORIZED"
  | .RateLimited => "RATE_LIMITED"
  | .Internal => "INTERNAL"

/-- `NarrativeStep`. -/
structure NarrativeStep where
  cell : String
  timestamp : Nat
  action : String
  data : Option Json := none
  duration_micros : Option Nat := none

/-- `NarrativeStep::new` (timestamp is `now_millis()`, passed explicitly). -/
def NarrativeStep.new (cell action : String) (now : Nat) : NarrativeStep :=
  { cell := cell, timestamp := now, action := action }

/-- `MeshError`. -/
structure MeshError where
  code : ErrorCode
  message : String
  from_ : String
  trace : List String
  timestamp : Nat
  history : Option (List NarrativeStep)
  details : Option Json

/-- `MeshError::new`. -/
def MeshError.new (code : ErrorCode) (message from_ : String) (now : Nat) : MeshError :=
  { code := code, message := message, from_ := from_, trace := [],
    timestamp := now, history := none, details := none }

/-- `MeshError::with_trace`. -/
def MeshError.with_trace (e : MeshError) (trace : List String) : MeshError :=
  { e with trace := trace }

/-- `MeshError::with_history`. -/
def MeshError.with_history (e : MeshError) (history : List NarrativeStep) : MeshError :=
  { e with history := some history }

/-- `TraceResult`. -/
structure TraceResult where
  ok : Bool
  value : Option Json
  error : Option MeshError
  cid : String
  latency_micros : Option Nat

/-- `TraceResult::success` (the value is already a `Json`, so serialization is identity). -/
def TraceResult.success (cid : String) (value : Json) : TraceResult :=
  { ok := true, value := some value, error := none, cid := cid, latency_micros := none }

/-- `TraceResult::failure`. -/
def TraceResult.failure (cid : String) (error : MeshError) : TraceResult :=
  { ok := false, value := none, error := some error, cid := cid, latency_micros := none }

/-- `TraceResult::with_latency` (the elapsed micros are passed explicitly). -/
def TraceResult.with_latency (r : TraceResult) (micros : Nat) : TraceResult :=
  { r with latency_micros := some micros }

/-- `AtlasEntry`. -/
structure AtlasEntry where
  id : Option String
  addr : String
  caps : List String
  pub_key : String
  last_seen : Nat
  last_gossiped : Nat
  gossip_hop_count : Nat
  metadata : Option Json := none
  latency_ms : Option Nat := none

/-- `AtlasEntry::new`. -/
def AtlasEntry.new (id addr : String) (caps : List String) (now : Nat) : AtlasEntry :=
  { id := some id, addr := addr, caps := caps, pub_key := "",
    last_seen := now, last_gossiped := now, gossip_hop_count := 0 }

/-- `AtlasEntry::with_pub_key`. -/
def AtlasEntry.with_pub_key (e : AtlasEntry) (key : String) : AtlasEntry :=
  { e with pub_key := key }

/-- `Intent`. -/
inductive Intent where
  | Ask | Tell
  deriving DecidableEq

/-- `Payload`. -/
structure Payload where
  capability : String
  args : Json

/-- `Signal` (the `proofs`, piggybacked `atlas` and `extensions` maps are
    association lists, as elsewhere). -/
structure Signal where
  id : String
  from_ : String
  intent : Intent
  payload : Payload
  proofs : List (String × String) := []
  atlas : List (String × AtlasEntry) := []
  trace : List String := []
  steps : List NarrativeStep := []
  visited_cell_ids : List String := []
  visited_addrs : List String := []
  hops : Nat := 0
  flood_attempted : Bool := false
  registry_scanned : Bool := false
  deadline_ms : Option Nat := none

/-- `Signal::is_expired`: `deadline_ms.map(|d| now_millis() > d).unwrap_or(false)`. -/
def Signal.is_expired (s : Signal) (now : Nat) : Bool :=
  (s.deadline_ms.map fun d => decide (now > d)).getD false

/-- `Signal::record_step`. -/
def Signal.record_step (s : Signal) (cell action : String) (now : Nat) : Signal :=
  { s with steps := s.steps ++ [NarrativeStep.new cell action now] }

/-- `Signal::mark_visited`: add to both visited sequences iff not already present. -/
def Signal.mark_visited (s : Signal) (cell_id addr : String) : Signal :=
  let s :=
    if s.visited_cell_ids.contains cell_id then s
    else { s with visited_cell_ids := s.visited_cell_ids ++ [cell_id] }
  if s.visited_addrs.contains addr then s
  else { s with visited_addrs := s.visited_addrs ++ [addr] }

/-- `CircuitBreaker` (the two atomics plus the two configuration fields). -/
structure CircuitBreaker where
  failures : Nat
  last_failure : Nat
  threshold : Nat
  recovery_ms : Nat

/-- `CircuitBreaker::new`. -/
def CircuitBreaker.new (threshold recovery_ms : Nat) : CircuitBreaker :=
  { failures := 0, last_failure := 0, threshold := threshold, recovery_ms := recovery_ms }

/-- `CircuitBreaker::record_success`: store 0 into `failures`. -/
def CircuitBreaker.record_success (b : CircuitBreaker) : CircuitBreaker :=
  { b with failures := 0 }

/-- `CircuitBreaker::record_failure`: `fetch_add(1)` (wrapping `u64`) and stamp
    `last_failure` with `now_millis()`. -/
def CircuitBreaker.record_failure (b : CircuitBreaker) (now : Nat) : CircuitBreaker :=
  { b with failures := (b.failures + 1) % 2 ^ 64, last_failure := now }

/-- `CircuitBreaker::is_open`: early-return false when under threshold, else
    compare the saturating elapsed time against `recovery_ms`. -/
def CircuitBreaker.is_open (b : CircuitBreaker) (now : Nat) : Bool :=
  if b.failures < b.threshold then false
  else decide (now - b.last_failure < b.recovery_ms)

/-- `CircuitState`. -/
inductive CircuitState where
  | Closed | HalfOpen | Open
  deriving DecidableEq

/-- `CircuitBreaker::state`. -/
def CircuitBreaker.state (b : CircuitBreaker) (now : Nat) : CircuitState :=
  if b.is_open now then .Open
  else if b.failures > 0 then .HalfOpen
  else .Closed

/-! ### Association-list model of `DashMap<String, β>` -/

/-- Lookup (`DashMap::get`). -/
def lookupA {β : Type} : List (String × β) → String → Option β
  | [], _ => none
  | kv :: rest, k => if kv.1 = k then some kv.2 else lookupA rest k

/-- Membership (`DashMap::contains_key`). -/
def containsA {β : Type} (l : List (String × β)) (k : String) : Bool :=
  (lookupA l k).isSome

/-- Insertion (`DashMap::insert`): replace the value at the key, else append. -/
def insertA {β : Type} : List (String × β) → String → β → List (String × β)
  | [], k, v => [(k, v)]
  | kv :: rest, k, v => if kv.1 = k then (k, v) :: rest else kv :: insertA rest k v

/-- Removal (`DashMap::remove`). -/
def removeA {β : Type} : List (String × β) → String → List (String × β)
  | [], _ => []
  | kv :: rest, k => if kv.1 = k then removeA rest k else kv :: removeA rest k

/-- In-place value update at an existing key (the effect of mutating through a
    `DashMap::get` guard; the identity on absent keys). -/
def updateA {β : Type} (l : List (String × β)) (k : String) (f : β → β) :
    List (String × β) :=
  l.map fun kv => if kv.1 = k then (kv.1, f kv.2) else kv

/-! ### The cell state -/

/-- The mutable state of a `RheoCell`, together with the configuration fields
    the routing core reads (`config.atlas_ttl_ms`, `config.seed`). -/
structure RheoCell where
  id : String
  addr : String
  pub_key_hex : String
  atlas_ttl_ms : Nat
  seed : Option String
  handlers : List String
  atlas : List (String × AtlasEntry)
  circuits : List (String × CircuitBreaker)
  seen_nonces : List (String × Nat)
  active_executions : List (String × Option TraceResult)
  result_cache : List (String × (TraceResult × Nat))
  is_shutting_down : Nat

/-- One iteration of the `for (key_id, mut entry) in incoming` loop of
    `RheoCell::merge_atlas`. -/
def RheoCell.mergeEntry (cell : RheoCell) (now : Nat) (via_gossip : Bool)
    (atlas : List (String × AtlasEntry)) (kv : String × AtlasEntry) :
    List (String × AtlasEntry) :=
  let key_id := kv.1
  let entry := kv.2
  if key_id = cell.id then atlas
  else
    -- if the entry inside the JSON didn't have an id, use the key from the map
    let entry := if entry.id.isNone then { entry with id := some key_id } else entry
    -- skip stale entries (not already known)
    if now - entry.last_seen > cell.atlas_ttl_ms ∧ ¬ containsA atlas key_id then atlas
    else
      let entry := { entry with last_gossiped := now }
      let entry :=
        if via_gossip then { entry with gossip_hop_count := min (entry.gossip_hop_count + 1) 3 }
        else { entry with gossip_hop_count := 0, last_seen := now }
      match lookupA atlas key_id with
      | some existing =>
          if entry.last_seen ≤ existing.last_seen ∧ ¬ via_gossip then atlas
          else insertA atlas key_id entry
      | none => insertA atlas key_id entry

/-- `RheoCell::merge_atlas`. The incoming `HashMap` is a list of key/entry
    pairs in iteration order. -/
def RheoCell.merge_atlas (cell : RheoCell) (incoming : List (String × AtlasEntry))
    (via_gossip : Bool) (now : Nat) : RheoCell :=
  { cell with atlas := incoming.foldl (cell.mergeEntry now via_gossip) cell.atlas }

/-- `RheoCell::cleanup`. `nowMs` is `now_millis()`; `nowInstant` is the
    `Instant::now()` captured at entry, as milliseconds on the monotonic clock.
    The atlas filter's `now.duration_since(Instant::now())` compares the entry
    instant against a later one, so it saturates to the zero duration: the
    eviction condition degenerates to `e.last_seen < now_millis()` (the bound
    `_ttl` is computed by the source and never used). -/
def RheoCell.cleanup (cell : RheoCell) (nowMs nowInstant : Nat) : RheoCell :=
  let to_remove :=
    (cell.atlas.filter fun kv => kv.1 ≠ cell.id ∧ 0 + kv.2.last_seen < nowMs).map (·.1)
  { cell with
    atlas := to_remove.foldl removeA cell.atlas
    seen_nonces := cell.seen_nonces.filter fun kv => nowInstant - kv.2 < 60000
    result_cache := cell.result_cache.filter fun kv => kv.2.1.ok ∨ nowInstant - kv.2.2 < 10000 }

/-- The atlas-registration step of `RheoCell::listen` ("Add self to atlas"):
    record the bound address and insert the self entry carrying the handler
    names registered at this moment. -/
def RheoCell.listen (cell : RheoCell) (addr_str : String) (now : Nat) : RheoCell :=
  let self_entry := (AtlasEntry.new cell.id addr_str cell.handlers now).with_pub_key
    cell.pub_key_hex
  { cell with addr := addr_str, atlas := insertA cell.atlas cell.id self_entry }

/-- `RheoCell::provide`: register a capability handler. Only the key set of the
    handler table matters to the embedding; `DashMap::insert` leaves the key
    set unchanged when the capability is already registered. -/
def RheoCell.provide (cell : RheoCell) (capability : String) : RheoCell :=
  if cell.handlers.contains capability then cell
  else { cell with handlers := cell.handlers ++ [capability] }

/-- The value `{"_meshStatus": "DUPLICATE_ARRIVAL"}` returned on the dedup path. -/
def duplicateArrivalValue : Json :=
  Json.obj [("_meshStatus", Json.str "DUPLICATE_ARRIVAL")]

/-- What one call of `RheoCell::route` produces: the returned `TraceResult`,
    the cell state after the call, how many times the call reached
    `RheoCell::execute`, and the signal as last mutated by the call. -/
structure RouteOut where
  result : TraceResult
  cell : RheoCell
  execCount : Nat
  finalSignal : Signal

/-- `RheoCell::route`. `exec` abstracts `RheoCell::execute` (local handler or
    forwarding); `elapsedMicros` is `start.elapsed()` at the tail of the call. -/
def RheoCell.route (cell : RheoCell) (exec : Signal → TraceResult)
    (now elapsedMicros : Nat) (signal : Signal) : RouteOut :=
  -- check deadline
  if signal.is_expired now then
    { result := TraceResult.failure signal.id
        ((MeshError.new .Timeout "Signal deadline exceeded" cell.id now).with_trace signal.trace),
      cell := cell, execCount := 0, finalSignal := signal }
  -- check for shutdown
  else if cell.is_shutting_down > 0 then
    { result := TraceResult.failure signal.id
        (MeshError.new .NotReady "Cell is shutting down" cell.id now),
      cell := cell, execCount := 0, finalSignal := signal }
  -- deduplication check
  else if containsA cell.seen_nonces signal.id then
    { result := TraceResult.success signal.id duplicateArrivalValue,
      cell := cell, execCount := 0, finalSignal := signal }
  else
    let cell := { cell with seen_nonces := insertA cell.seen_nonces signal.id now }
    -- loop prevention
    if signal.visited_cell_ids.contains cell.id then
      { result := TraceResult.failure signal.id
          (((MeshError.new .LoopDetected "Signal loop detected" cell.id now).with_trace
            signal.trace).with_history signal.steps),
        cell := cell, execCount := 0, finalSignal := signal }
    else
      -- record narrative
      let signal := signal.record_step cell.id "RECEIVED" now
      let signal := signal.mark_visited cell.id cell.addr
      let signal := { signal with hops := (signal.hops + 1) % 256 }
      let signal := { signal with trace := signal.trace ++ [cell.id ++ ":" ++ toString now] }
      -- request joining: return the shared result only when the slot is filled
      let execution_key := signal.id ++ ":" ++ signal.payload.capability
      match lookupA cell.active_executions execution_key with
      | some (some shared) =>
          { result := shared, cell := cell, execCount := 0, finalSignal := signal }
      | _ =>
          -- create execution slot (empty), execute, publish, then drop the slot
          let cell :=
            { cell with active_executions := insertA cell.active_executions execution_key none }
          let result := exec signal
          let cell :=
            { cell with
                active_executions := insertA cell.active_executions execution_key (some result) }
          let cell :=
            { cell with active_executions := removeA cell.active_executions execution_key }
          -- cache successful results briefly
          let cell :=
            if result.ok then
              { cell with result_cache := insertA cell.result_cache result.cid (result, now) }
            else cell
          { result := result.with_latency elapsedMicros,
            cell := cell, execCount := 1, finalSignal := signal }

/-- `RheoCell::rpc`. `transport` abstracts `rpc_raw`; `elapsedMicros` is the
    wall duration of the call. -/
def RheoCell.rpc (cell : RheoCell) (transport : String → Signal → TraceResult)
    (now elapsedMicros : Nat) (addr : String) (signal : Signal) :
    TraceResult × RheoCell :=
  -- check circuit breaker
  match lookupA cell.circuits addr with
  | some circuit =>
      if circuit.is_open now then
        (TraceResult.failure signal.id (MeshError.new .CircuitOpen "Circuit breaker open" addr now),
         cell)
      else
        let result := transport addr signal
        -- update circuit breaker (second get of the same key)
        let cell :=
          match lookupA cell.circuits addr with
          | some _ =>
              if result.ok then
                { cell with circuits := updateA cell.circuits addr CircuitBreaker.record_success }
              else
                { cell with circuits := updateA cell.circuits addr (·.record_failure now) }
          | none => cell
        (result.with_latency elapsedMicros, cell)
  | none =>
      let result := transport addr signal
      -- the second get also misses: no breaker is touched
      (result.with_latency elapsedMicros, cell)

/-- `self.circuits.entry(addr).or_insert_with(|| CircuitBreaker::new(3, 30000)).record_failure()`
    in `RheoCell::forward_to_peer`. -/
def RheoCell.entryRecordFailure (cell : RheoCell) (addr : String) (now : Nat) : RheoCell :=
  match lookupA cell.circuits addr with
  | some _ => { cell with circuits := updateA cell.circuits addr (·.record_failure now) }
  | none =>
      { cell with circuits :=
          cell.circuits ++ [(addr, (CircuitBreaker.new 3 30000).record_failure now)] }

/-- Outcome of one iteration of the direct-try loop of `forward_to_peer`. -/
structure DirectTryOut where
  result : TraceResult
  cell : RheoCell
  signal : Signal
  returned : Bool

/-- One iteration of `for (i, provider) in providers.iter().take(3)` in
    `RheoCell::forward_to_peer`: step recording, the RPC, the early return on
    success or `LoopDetected`, and the breaker hit otherwise. -/
def RheoCell.direct_try (cell : RheoCell) (transport : String → Signal → TraceResult)
    (now elapsedMicros : Nat) (i : Nat) (provider_addr : String) (signal : Signal) :
    DirectTryOut :=
  let signal := signal.record_step cell.id (if i = 0 then "P2P_ROUTE" else "P2P_FAILOVER") now
  let out := cell.rpc transport now elapsedMicros provider_addr signal
  let result := out.1
  let cell := out.2
  if result.ok || ((result.error.map fun e => decide (e.code = ErrorCode.LoopDetected)).getD false)
  then
    { result := result, cell := cell, signal := signal, returned := true }
  else
    { result := result, cell := cell.entryRecordFailure provider_addr now, signal := signal,
      returned := false }

/-- `ts.foldl record_failure`: a sequence of consecutive `record_failure` calls
    at the given times. -/
def applyFailures (b : CircuitBreaker) (ts : List Nat) : CircuitBreaker :=
  ts.foldl CircuitBreaker.record_failure b

/-! ### Concrete fixtures used to evaluate the model -/

/-- An execution oracle standing for a local handler that answers `"PONG"`. -/
def exec0 : Signal → TraceResult := fun s => TraceResult.success s.id (Json.str "PONG")

/-- A transport oracle whose calls always fail with `RpcFail`. -/
def transportFail : String → Signal → TraceResult := fun addr s =>
  TraceResult.failure s.id (MeshError.new .RpcFail "connection refused" addr 0)

/-- A fresh `Ask` signal, as `Signal::new` leaves it (provenance zeroed). -/
def mkSignal (id capability : String) : Signal :=
  { id := id, from_ := "client", intent := .Ask,
    payload := { capability := capability, args := Json.null } }

/-- A quiescent cell with one registered handler. -/
def baseCell : RheoCell :=
  { id := "S", addr := "http://127.0.0.1:7000", pub_key_hex := "ab",
    atlas_ttl_ms := 60000, seed := none, handlers := ["mesh/ping"],
    atlas := [], circuits := [], seen_nonces := [], active_executions := [],
    result_cache := [], is_shutting_down := 0 }

/-- Self atlas entry of `baseCell`, registered at 1000 ms. -/
def eSelf : AtlasEntry := AtlasEntry.new "S" "http://127.0.0.1:7000" ["mesh/ping"] 1000

/-- Peer entry last seen at 999 ms (1 ms ago at `now = 1000`). -/
def eB999 : AtlasEntry := AtlasEntry.new "B" "http://127.0.0.1:7001" ["x"] 999

/-- Peer entry last seen at 50 ms. -/
def eB50 : AtlasEntry := AtlasEntry.new "B" "http://127.0.0.1:7001" ["x"] 50

/-- Incoming gossip entry for the same peer, last seen at 10 ms (older). -/
def eB10 : AtlasEntry := AtlasEntry.new "B" "http://127.0.0.1:7001" ["y"] 10

/-- Snapshot entry last seen at 0 ms. -/
def eB0 : AtlasEntry := AtlasEntry.new "B" "http://127.0.0.1:7001" ["x"] 0

/-- A cached successful result. -/
def okRes : TraceResult := TraceResult.success "c" (Json.str "v")

/-- Cell that has already seen nonce `"sig1"`. -/
def cellDup : RheoCell := { baseCell with seen_nonces := [("sig1", 0)] }

/-- Cell with an in-flight (unfilled) execution slot for `"sig1:cap"`. -/
def cellSlot : RheoCell := { baseCell with active_executions := [("sig1:cap", none)] }

/-- Cell `A` used in the loop-detection scenario. -/
def cellA : RheoCell := { baseCell with id := "A" }

/-- Cell holding its own entry plus a 1 ms old peer entry. -/
def cellC1 : RheoCell := { baseCell with atlas := [("S", eSelf), ("B", eB999)] }

/-- Cell knowing peer `B` with `last_seen = 50`. -/
def cellC2 : RheoCell := { baseCell with atlas := [("B", eB50)] }

/-- Cell holding an 11 s old successful result in the cache. -/
def cellC3 : RheoCell := { baseCell with result_cache := [("c", (okRes, 0))] }

/-- An open breaker: at the threshold, failure stamped at 100 ms. -/
def bOpen : CircuitBreaker :=
  { failures := 3, last_failure := 100, threshold := 3, recovery_ms := 30000 }

/-- A half-open breaker: one failure, under the threshold. -/
def bHalf : CircuitBreaker :=
  { failures := 1, last_failure := 100, threshold := 3, recovery_ms := 30000 }

/-- Cell whose breaker for peer `"p"` is open. -/
def cellOpen : RheoCell := { baseCell with circuits := [("p", bOpen)] }

/-- Cell whose breaker for peer `"p"` is half-open. -/
def cellHalf : RheoCell := { baseCell with circuits := [("p", bHalf)] }

/-- A duplicate arrival whose deadline (5 ms) already passed at `now = 10`. -/
def sigDupExp : Signal := { mkSignal "sig1" "cap" with deadline_ms := some 5 }

/-- A freshly constructed signal whose visited set already holds cell `A`. -/
def sigLoop : Signal := { mkSignal "sigL" "cap" with visited_cell_ids := ["A"] }

/-! ### Association-list lemmas -/

theorem lookupA_insertA_self {β : Type} (l : List (String × β)) (k : String) (v : β) :
    lookupA (insertA l k v) k = some v := by
  induction l with
  | nil => simp [insertA, lookupA]
  | cons kv rest ih =>
      by_cases h : kv.1 = k
      · simp [insertA, h, lookupA]
      · simp [insertA, h, lookupA, ih]

theorem lookupA_insertA_ne {β : Type} (l : List (String × β)) (k k' : String) (v : β)
    (h : k' ≠ k) : lookupA (insertA l k v) k' = lookupA l k' := by
  induction l with
  | nil => simp [insertA, lookupA, Ne.symm h]
  | cons kv rest ih =>
      by_cases hk : kv.1 = k
      · simp [insertA, hk, lookupA, Ne.symm h, h]
      · by_cases hk' : kv.1 = k'
        · simp [insertA, hk, lookupA, hk', h]
        · simp [insertA, hk, lookupA, hk', ih]

theorem containsA_insertA_self {β : Type} (l : List (String × β)) (k : String) (v : β) :
    containsA (insertA l k v) k = true := by
  simp [containsA, lookupA_insertA_self]

theorem lookupA_removeA_ne {β : Type} (l : List (String × β)) (k k' : String)
    (h : k' ≠ k) : lookupA (removeA l k) k' = lookupA l k' := by
  induction l with
  | nil => simp [removeA]
  | cons kv rest ih =>
      by_cases hk : kv.1 = k
      · simp [removeA, hk, lookupA, Ne.symm h, h, ih]
      · by_cases hk' : kv.1 = k'
        · simp [removeA, hk, lookupA, hk', h]
        · simp [removeA, hk, lookupA, hk', ih]

theorem lookupA_foldl_removeA {β : Type} (ks : List String) (l : List (String × β))
    (id : String) (h : ∀ k ∈ ks, k ≠ id) :
    lookupA (ks.foldl removeA l) id = lookupA l id := by
  induction ks generalizing l with
  | nil => rfl
  | cons k ks ih =>
      have hk : k ≠ id := h k (List.mem_cons_self k ks)
      have hrest : ∀ k' ∈ ks, k' ≠ id := fun k' hk' => h k' (List.mem_cons_of_mem k hk')
      simp only [List.foldl_cons]
      rw [ih (removeA l k) hrest, lookupA_removeA_ne l k id (fun hh => hk hh.symm)]

theorem lookupA_updateA_self {β : Type} (l : List (String × β)) (k : String) (f : β → β) :
    lookupA (updateA l k f) k = (lookupA l k).map f := by
  induction l with
  | nil => simp [updateA, lookupA]
  | cons kv rest ih =>
      by_cases h : kv.1 = k
      · simp [updateA, h, lookupA]
      · simp only [updateA, List.map_cons, if_neg h, lookupA]
        simpa [updateA] using ih

theorem updateA_keys {β : Type} (l : List (String × β)) (k : String) (f : β → β) :
    (updateA l k f).map Prod.fst = l.map Prod.fst := by
  unfold updateA
  rw [List.map_map]
  apply List.map_congr_left
  intro kv _
  by_cases h : kv.1 = k <;> simp [h]

/-! ### Structural lemmas about the operations -/

theorem route_execCount_cases (cell : RheoCell) (exec : Signal → TraceResult)
    (now e : Nat) (signal : Signal) :
    (cell.route exec now e signal).execCount = 0
    ∨ ((cell.route exec now e signal).execCount = 1
        ∧ containsA (cell.route exec now e signal).cell.seen_nonces signal.id = true) := by
  simp only [RheoCell.route]
  repeat' split
  all_goals first
    | (left; rfl)
    | (right; exact ⟨rfl, containsA_insertA_self _ _ _⟩)

theorem route_dup_execCount (cell : RheoCell) (exec : Signal → TraceResult)
    (now e : Nat) (signal : Signal)
    (h : containsA cell.seen_nonces signal.id = true) :
    (cell.route exec now e signal).execCount = 0 := by
  simp only [RheoCell.route]
  split
  · rfl
  · split
    · rfl
    · simp [h]

theorem mergeEntry_lookup_self (cell : RheoCell) (now : Nat) (vg : Bool)
    (atlas : List (String × AtlasEntry)) (kv : String × AtlasEntry) :
    lookupA (cell.mergeEntry now vg atlas kv) cell.id = lookupA atlas cell.id := by
  simp only [RheoCell.mergeEntry]
  split
  · rfl
  · rename_i hne
    have h2 : cell.id ≠ kv.1 := fun hh => hne hh.symm
    repeat' split
    all_goals first | rfl | exact lookupA_insertA_ne _ _ _ _ h2

theorem merge_atlas_lookup_self (cell : RheoCell) (inc : List (String × AtlasEntry))
    (vg : Bool) (now : Nat) :
    lookupA (cell.merge_atlas inc vg now).atlas cell.id = lookupA cell.atlas cell.id := by
  simp only [RheoCell.merge_atlas]
  suffices h : ∀ (inc : List (String × AtlasEntry)) (a : List (String × AtlasEntry)),
      lookupA (inc.foldl (cell.mergeEntry now vg) a) cell.id = lookupA a cell.id from
    h inc cell.atlas
  intro inc
  induction inc with
  | nil => intro a; rfl
  | cons kv rest ih =>
      intro a
      simp only [List.foldl_cons]
      rw [ih, mergeEntry_lookup_self]

theorem cleanup_lookup_self (cell : RheoCell) (nowMs nowI : Nat) :
    lookupA (cell.cleanup nowMs nowI).atlas cell.id = lookupA cell.atlas cell.id := by
  simp only [RheoCell.cleanup]
  apply lookupA_foldl_removeA
  intro k hk
  simp only [List.mem_map] at hk
  obtain ⟨kv, hmem, rfl⟩ := hk
  have hp := List.of_mem_filter hmem
  simp only [decide_eq_true_eq] at hp
  exact hp.1

theorem applyFailures_threshold (ts : List Nat) (b : CircuitBreaker) :
    (applyFailures b ts).threshold = b.threshold := by
  induction ts generalizing b with
  | nil => rfl
  | cons t ts ih =>
      show (applyFailures (b.record_failure t) ts).threshold = b.threshold
      rw [ih]
      rfl

theorem applyFailures_recovery (ts : List Nat) (b : CircuitBreaker) :
    (applyFailures b ts).recovery_ms = b.recovery_ms := by
  induction ts generalizing b with
  | nil => rfl
  | cons t ts ih =>
      show (applyFailures (b.record_failure t) ts).recovery_ms = b.recovery_ms
      rw [ih]
      rfl

theorem applyFailures_failures (ts : List Nat) (b : CircuitBreaker)
    (h : b.failures + ts.length < 2 ^ 64) :
    (applyFailures b ts).failures = b.failures + ts.length := by
  induction ts generalizing b with
  | nil => simp [applyFailures]
  | cons t ts ih =>
      show (applyFailures (b.record_failure t) ts).failures = b.failures + (t :: ts).length
      have h1 : (b.record_failure t).failures = b.failures + 1 := by
        simp only [CircuitBreaker.record_failure]
        apply Nat.mod_eq_of_lt
        simp only [List.length_cons] at h
        omega
      have h2 : (b.record_failure t).failures + ts.length < 2 ^ 64 := by
        rw [h1]
        simp only [List.length_cons] at h
        omega
      rw [ih (b.record_failure t) h2, h1]
      simp only [List.length_cons]
      omega

/-! ### Claim theorems -/

/-- C1 (code evaluated at the failing input): the claim says cleanup keeps
    every non-self entry with `now - last_seen ≤ atlas_ttl_ms`, but the code's
    eviction condition degenerates to `last_seen < now_millis()` (the TTL is
    never used), so the entry `B` seen 1 ms ago — well inside the 60 s TTL —
    is evicted, while the self entry is kept. -/
theorem cleanup_evicts_entry_within_ttl :
    lookupA (cellC1.cleanup 1000 0).atlas "B" = none
    ∧ lookupA (cellC1.cleanup 1000 0).atlas "S" = some eSelf
    ∧ 1000 - eB999.last_seen ≤ cellC1.atlas_ttl_ms := by
  refine ⟨rfl, rfl, by decide⟩

/-- C2 (code evaluated at the failing input): the claim says a gossip merge
    keeps an existing entry whose `last_seen` (50) is ≥ the incoming one (10),
    but the code's keep-guard requires `!via_gossip`, so the gossip merge
    overwrites the newer entry with the older incoming information. -/
theorem merge_gossip_overwrites_newer_entry :
    (lookupA cellC2.atlas "B").map AtlasEntry.last_seen = some 50
    ∧ (lookupA (cellC2.merge_atlas [("B", eB10)] true 100).atlas "B").map
        AtlasEntry.last_seen = some 10
    ∧ (lookupA (cellC2.merge_atlas [("B", eB10)] true 100).atlas "B").map
        AtlasEntry.caps = some ["y"] := by
  refine ⟨rfl, rfl, rfl⟩

/-- C3 (code evaluated at the failing input): the claim says cleanup removes
    every cached successful result older than 10 s, but the code's retain
    predicate `r.ok || age < 10 s` keeps successes unconditionally: an 11 s
    old success survives the cleanup pass. -/
theorem cleanup_keeps_stale_success :
    lookupA (cellC3.cleanup 20000 11000).result_cache "c" = some (okRes, 0)
    ∧ okRes.ok = true
    ∧ 10000 < 11000 - 0 := by
  refine ⟨rfl, rfl, by decide⟩

/-- C9 (code evaluated at the failing input): merging the same snapshot first
    directly and then via gossip does not leave `last_seen` unchanged: the
    direct merge stamps `last_seen = 100`, and the gossip merge (whose
    keep-guard requires `!via_gossip`) overwrites it back to the snapshot's
    value 0. -/
theorem merge_direct_then_gossip_changes_last_seen :
    (lookupA ((baseCell.merge_atlas [("B", eB0)] false 100).atlas) "B").map
        AtlasEntry.last_seen = some 100
    ∧ (lookupA (((baseCell.merge_atlas [("B", eB0)] false 100).merge_atlas
        [("B", eB0)] true 110).atlas) "B").map AtlasEntry.last_seen = some 0 := by
  refine ⟨rfl, rfl⟩

/-- C6: `is_open` is true iff `failures ≥ threshold` and the time since
    `last_failure` is strictly less than `recovery_ms`; a fresh breaker is not
    open after `threshold - 1` consecutive failures, becomes open exactly at
    the `threshold`-th `record_failure` (checked at the failure's own time),
    and a single `record_success` yields the `Closed` state. -/
theorem circuit_breaker_open_close (th rec t now : Nat) (ts : List Nat)
    (hth : 0 < th) (hrec : 0 < rec) (hth64 : th < 2 ^ 64) (hts : ts.length = th - 1) :
    (∀ (b : CircuitBreaker) (n : Nat),
        b.is_open n = true ↔ b.threshold ≤ b.failures ∧ n - b.last_failure < b.recovery_ms)
    ∧ (applyFailures (CircuitBreaker.new th rec) ts).is_open now = false
    ∧ ((applyFailures (CircuitBreaker.new th rec) ts).record_failure t).is_open t = true
    ∧ (∀ (b : CircuitBreaker) (n : Nat), 0 < b.threshold →
        b.record_success.state n = CircuitState.Closed) := by
  have hfail : (applyFailures (CircuitBreaker.new th rec) ts).failures = th - 1 := by
    have hlen : (CircuitBreaker.new th rec).failures + ts.length < 2 ^ 64 := by
      simp only [CircuitBreaker.new, hts]
      omega
    rw [applyFailures_failures ts _ hlen]
    simp [CircuitBreaker.new, hts]
  have hthp : (applyFailures (CircuitBreaker.new th rec) ts).threshold = th :=
    applyFailures_threshold ts _
  have hrecp : (applyFailures (CircuitBreaker.new th rec) ts).recovery_ms = rec :=
    applyFailures_recovery ts _
  refine ⟨?_, ?_, ?_, ?_⟩
  · intro b n
    simp only [CircuitBreaker.is_open]
    split
    · rename_i hlt
      simp only [Bool.false_eq_true, false_iff]
      intro hc
      omega
    · rename_i hge
      simp only [decide_eq_true_eq]
      constructor
      · intro hh
        exact ⟨Nat.le_of_not_lt hge, hh⟩
      · exact fun hh => hh.2
  · simp only [CircuitBreaker.is_open, hfail, hthp]
    rw [if_pos (by omega : th - 1 < th)]
  · have hf2 : ((applyFailures (CircuitBreaker.new th rec) ts).record_failure t).failures
        = th := by
      simp only [CircuitBreaker.record_failure, hfail]
      have h1 : th - 1 + 1 = th := by omega
      rw [h1, Nat.mod_eq_of_lt hth64]
    have ht2 : ((applyFailures (CircuitBreaker.new th rec) ts).record_failure t).threshold
        = th := by
      simp only [CircuitBreaker.record_failure]
      exact hthp
    have hr2 : ((applyFailures (CircuitBreaker.new th rec) ts).record_failure t).recovery_ms
        = rec := by
      simp only [CircuitBreaker.record_failure]
      exact hrecp
    have hl2 : ((applyFailures (CircuitBreaker.new th rec) ts).record_failure t).last_failure
        = t := rfl
    simp only [CircuitBreaker.is_open, hf2, ht2, hr2, hl2]
    rw [if_neg (by omega : ¬ th < th)]
    simp only [decide_eq_true_eq]
    omega
  · intro b n hb
    have h1 : b.record_success.is_open n = false := by
      simp only [CircuitBreaker.is_open, CircuitBreaker.record_success]
      rw [if_pos hb]
    simp only [CircuitBreaker.state, h1]
    simp [CircuitBreaker.record_success]

/-- C6 witness: threshold 3, recovery 30 s; two failures leave the breaker
    shut, the third opens it, and one success closes it again. -/
theorem circuit_breaker_open_close_witness :
    (applyFailures (CircuitBreaker.new 3 30000) [1, 2]).is_open 7 = false
    ∧ ((applyFailures (CircuitBreaker.new 3 30000) [1, 2]).record_failure 5).is_open 5 = true
    ∧ ((CircuitBreaker.new 3 30000).record_failure 1).record_success.state 9
        = CircuitState.Closed := by
  have h := circuit_breaker_open_close 3 30000 5 7 [1, 2]
    (by decide) (by decide) (by decide) (by decide)
  exact ⟨h.2.1, h.2.2.1, h.2.2.2 _ 9 (by decide)⟩

/-- C4 counterexample: a duplicate arrival whose deadline has already passed is
    answered by the expiry check, which runs before dedup — route returns a
    `Timeout` failure, not the `DUPLICATE_ARRIVAL` success the claim promises
    for every signal whose id is in `seen_nonces`. -/
theorem route_expired_duplicate_not_duplicate_arrival :
    containsA cellDup.seen_nonces sigDupExp.id = true
    ∧ sigDupExp.is_expired 10 = true
    ∧ (cellDup.route exec0 10 0 sigDupExp).result.ok = false
    ∧ ((cellDup.route exec0 10 0 sigDupExp).result.error.map MeshError.code)
        = some ErrorCode.Timeout := by
  refine ⟨rfl, rfl, rfl, rfl⟩

/-- C4 (amended with the expiry/shutdown qualifier): a duplicate arrival that
    passes the expiry and shutdown checks gets the `DUPLICATE_ARRIVAL` success
    with no execution and no mutation of signal or state; any two sequential
    routes of one signal id reach `execute` at most once in total. -/
theorem route_dedup_spec (exec : Signal → TraceResult) (now₁ e₁ now₂ e₂ : Nat)
    (cell : RheoCell) (signal : Signal)
    (hexp : signal.is_expired now₁ = false)
    (hsd : cell.is_shutting_down = 0)
    (hdup : containsA cell.seen_nonces signal.id = true) :
    (cell.route exec now₁ e₁ signal).result
        = TraceResult.success signal.id duplicateArrivalValue
    ∧ (cell.route exec now₁ e₁ signal).execCount = 0
    ∧ (cell.route exec now₁ e₁ signal).finalSignal = signal
    ∧ (cell.route exec now₁ e₁ signal).cell = cell
    ∧ ∀ (cell' : RheoCell) (signal' : Signal),
        (cell'.route exec now₁ e₁ signal').execCount
          + (((cell'.route exec now₁ e₁ signal').cell).route exec now₂ e₂ signal').execCount
          ≤ 1 := by
  refine ⟨?_, ?_, ?_, ?_, ?_⟩
  · simp [RheoCell.route, hexp, hsd, hdup]
  · simp [RheoCell.route, hexp, hsd, hdup]
  · simp [RheoCell.route, hexp, hsd, hdup]
  · simp [RheoCell.route, hexp, hsd, hdup]
  · intro cell' signal'
    rcases route_execCount_cases cell' exec now₁ e₁ signal' with h0 | ⟨h1, hmem⟩
    · rcases route_execCount_cases ((cell'.route exec now₁ e₁ signal').cell) exec now₂ e₂
        signal' with h0' | ⟨h1', _⟩ <;> omega
    · have h0' := route_dup_execCount ((cell'.route exec now₁ e₁ signal').cell) exec
        now₂ e₂ signal' hmem
      omega

/-- C4 witness: a live duplicate gets the `DUPLICATE_ARRIVAL` success with no
    execution, and routing a fresh signal twice executes at most once. -/
theorem route_dedup_spec_witness :
    (cellDup.route exec0 10 0 (mkSignal "sig1" "cap")).result
        = TraceResult.success "sig1" duplicateArrivalValue
    ∧ (cellDup.route exec0 10 0 (mkSignal "sig1" "cap")).execCount = 0
    ∧ (baseCell.route exec0 10 0 (mkSignal "sig2" "cap")).execCount
        + (((baseCell.route exec0 10 0 (mkSignal "sig2" "cap")).cell).route exec0 20 0
            (mkSignal "sig2" "cap")).execCount ≤ 1 := by
  have h := route_dedup_spec exec0 10 0 20 0 cellDup (mkSignal "sig1" "cap") rfl rfl rfl
  exact ⟨h.1, h.2.1, h.2.2.2.2 baseCell (mkSignal "sig2" "cap")⟩

/-- C5 (code evaluated at the failing input): route entered while an unfilled
    (in-flight) execution slot exists for `sig1:cap` does not await the shared
    result — the slot only short-circuits when already filled — so it creates
    a fresh slot and reaches `execute` again (a second handler invocation). -/
theorem route_inflight_slot_reexecutes :
    lookupA cellSlot.active_executions "sig1:cap" = some none
    ∧ (cellSlot.route exec0 10 0 (mkSignal "sig1" "cap")).execCount = 1
    ∧ (cellSlot.route exec0 10 0 (mkSignal "sig1" "cap")).result.value
        = some (Json.str "PONG") := by
  refine ⟨rfl, rfl, rfl⟩

/-- C7 counterexample: at the claim's own scenario — a freshly constructed
    signal with `visited_cell_ids = [A.id]` routed on cell `A` — the response
    is a `LOOP_DETECTED` failure, but `error.history` is present and EMPTY:
    the fresh signal has no narrative steps, and the `RECEIVED` step is only
    recorded after the loop check. -/
theorem route_loop_fresh_signal_empty_history :
    (cellA.route exec0 5 0 sigLoop).result.ok = false
    ∧ ((cellA.route exec0 5 0 sigLoop).result.error.map MeshError.code)
        = some ErrorCode.LoopDetected
    ∧ ((cellA.route exec0 5 0 sigLoop).result.error.map MeshError.history)
        = some (some ([] : List NarrativeStep))
    ∧ sigLoop.steps = [] := by
  refine ⟨rfl, rfl, rfl, rfl⟩

/-- C7 (amended: the history equals the signal's steps, which are empty for a
    fresh signal): a signal that passes the expiry, shutdown and dedup checks
    and whose visited set contains the routing cell's id is answered with a
    `LoopDetected` failure carrying the signal's trace and its narrative steps
    as history, and no handler is invoked. -/
theorem route_loop_detected_spec (exec : Signal → TraceResult) (now e : Nat)
    (cell : RheoCell) (signal : Signal)
    (hexp : signal.is_expired now = false)
    (hsd : cell.is_shutting_down = 0)
    (hdup : containsA cell.seen_nonces signal.id = false)
    (hloop : signal.visited_cell_ids.contains cell.id = true) :
    (cell.route exec now e signal).result
        = TraceResult.failure signal.id
            (((MeshError.new .LoopDetected "Signal loop detected" cell.id now).with_trace
              signal.trace).with_history signal.steps)
    ∧ (cell.route exec now e signal).result.ok = false
    ∧ ((cell.route exec now e signal).result.error.map fun err => err.code.codeString)
        = some "LOOP_DETECTED"
    ∧ ((cell.route exec now e signal).result.error.map MeshError.history)
        = some (some signal.steps)
    ∧ (cell.route exec now e signal).execCount = 0 := by
  have hmem : cell.id ∈ signal.visited_cell_ids := by simpa using hloop
  refine ⟨?_, ?_, ?_, ?_, ?_⟩ <;>
    simp [RheoCell.route, hexp, hsd, hdup, hmem, TraceResult.failure,
      MeshError.new, MeshError.with_trace, MeshError.with_history, ErrorCode.codeString]

/-- C7 witness: the loop theorem applied at the concrete scenario. -/
theorem route_loop_detected_spec_witness :
    (cellA.route exec0 5 0 sigLoop).result
        = TraceResult.failure "sigL"
            (((MeshError.new .LoopDetected "Signal loop detected" "A" 5).with_trace
              []).with_history [])
    ∧ (cellA.route exec0 5 0 sigLoop).execCount = 0 := by
  have h := route_loop_detected_spec exec0 5 0 cellA sigLoop rfl rfl rfl rfl
  exact ⟨h.1, h.2.2.2.2⟩

/-- C8 counterexample: `provide` called after `listen` extends the handler
    table but never refreshes the self atlas entry, so `atlas[self.id].caps`
    no longer equals the registered handler names. -/
theorem provide_after_listen_stale_caps :
    ((baseCell.listen "http://127.0.0.1:7000" 100).provide "test/echo").handlers
        = ["mesh/ping", "test/echo"]
    ∧ (lookupA ((baseCell.listen "http://127.0.0.1:7000" 100).provide "test/echo").atlas
        "S").map AtlasEntry.caps = some ["mesh/ping"]
    ∧ ¬ ((lookupA ((baseCell.listen "http://127.0.0.1:7000" 100).provide "test/echo").atlas
          "S").map AtlasEntry.caps
        = some ((baseCell.listen "http://127.0.0.1:7000" 100).provide "test/echo").handlers) := by
  refine ⟨rfl, rfl, by decide⟩

/-- C8 (amended: the entry persists but its caps are those registered at
    listen time): `listen` installs `atlas[self.id]` with `caps` equal to the
    handler names at that moment, and neither `provide`, nor `cleanup` (which
    never evicts self), nor `merge_atlas` (which skips the self key) removes
    or alters that entry — but `provide` after `listen` does not refresh it. -/
theorem listen_self_entry_spec (cell : RheoCell) (addr_str : String) (now : Nat)
    (cap : String) (inc : List (String × AtlasEntry)) (vg : Bool)
    (now₂ nowMs nowI : Nat) :
    (lookupA (cell.listen addr_str now).atlas cell.id).map AtlasEntry.caps
        = some cell.handlers
    ∧ ((cell.listen addr_str now).provide cap).atlas = (cell.listen addr_str now).atlas
    ∧ lookupA ((cell.listen addr_str now).cleanup nowMs nowI).atlas cell.id
        = lookupA (cell.listen addr_str now).atlas cell.id
    ∧ lookupA ((cell.listen addr_str now).merge_atlas inc vg now₂).atlas cell.id
        = lookupA (cell.listen addr_str now).atlas cell.id := by
  refine ⟨?_, ?_, ?_, ?_⟩
  · simp [RheoCell.listen, lookupA_insertA_self, AtlasEntry.new, AtlasEntry.with_pub_key]
  · unfold RheoCell.provide
    split <;> rfl
  · exact cleanup_lookup_self (cell.listen addr_str now) nowMs nowI
  · exact merge_atlas_lookup_self (cell.listen addr_str now) inc vg now₂

/-- `with_latency` touches only the `latency_micros` field. -/
theorem with_latency_ok (r : TraceResult) (e : Nat) : (r.with_latency e).ok = r.ok := rfl

/-- `with_latency` leaves the error untouched. -/
theorem with_latency_error (r : TraceResult) (e : Nat) :
    (r.with_latency e).error = r.error := rfl

/-- `rpc` against an existing closed breaker whose transport call fails:
    it records exactly one failure on that breaker. -/
theorem rpc_failure_update (transport : String → Signal → TraceResult)
    (cell : RheoCell) (addr : String) (signal : Signal) (now e : Nat)
    (b : CircuitBreaker)
    (hb : lookupA cell.circuits addr = some b)
    (hopen : b.is_open now = false)
    (hfail : (transport addr signal).ok = false) :
    cell.rpc transport now e addr signal
      = ((transport addr signal).with_latency e,
         { cell with circuits := updateA cell.circuits addr (·.record_failure now) }) := by
  simp only [RheoCell.rpc, hb, hopen, hfail]
  simp

/-- `entry(addr).or_insert_with(...).record_failure()` on an existing breaker
    records one more failure on it. -/
theorem entryRecordFailure_lookup (cell : RheoCell) (addr : String) (now : Nat)
    (b : CircuitBreaker) (hb : lookupA cell.circuits addr = some b) :
    lookupA (cell.entryRecordFailure addr now).circuits addr
      = some (b.record_failure now) := by
  simp only [RheoCell.entryRecordFailure, hb]
  simp [lookupA_updateA_self, hb]

/-- C10 counterexample: once the breaker for `"p"` is open, `rpc` short-
    circuits with `CircuitOpen` before recording anything, so the failed
    direct try increments the failure counter by one (only in
    `forward_to_peer`), not by two as the claim states for every failed
    direct-try RPC on an existing breaker. -/
theorem direct_try_open_breaker_single_increment :
    bOpen.is_open 100 = true
    ∧ bOpen.failures = 3
    ∧ (lookupA (cellOpen.direct_try transportFail 100 0 0 "p"
        (mkSignal "sigP" "x")).cell.circuits "p").map CircuitBreaker.failures = some 4 := by
  refine ⟨rfl, rfl, rfl⟩

/-- C10 (amended: the double increment holds for a breaker that exists and is
    not open and a failure that is not `LoopDetected`): `rpc` never creates or
    removes a breaker and leaves the cell untouched when the target address
    has none; a failed non-`LoopDetected` direct try against an existing
    non-open breaker records the failure twice — once inside `rpc`, once in
    `forward_to_peer`. -/
theorem rpc_breaker_spec (transport : String → Signal → TraceResult)
    (cell : RheoCell) (addr : String) (signal : Signal) (now e i : Nat)
    (b : CircuitBreaker)
    (hb : lookupA cell.circuits addr = some b)
    (hopen : b.is_open now = false)
    (hfail : (transport addr (signal.record_step cell.id
        (if i = 0 then "P2P_ROUTE" else "P2P_FAILOVER") now)).ok = false)
    (hloop : ((transport addr (signal.record_step cell.id
        (if i = 0 then "P2P_ROUTE" else "P2P_FAILOVER") now)).error.map
          fun err => decide (err.code = ErrorCode.LoopDetected)).getD false = false)
    (hsmall : b.failures + 2 < 2 ^ 64) :
    (∀ (cell' : RheoCell) (addr' : String) (signal' : Signal) (n e' : Nat),
        ((cell'.rpc transport n e' addr' signal').2.circuits).map Prod.fst
          = cell'.circuits.map Prod.fst)
    ∧ (∀ (cell' : RheoCell) (addr' : String) (signal' : Signal) (n e' : Nat),
        lookupA cell'.circuits addr' = none →
        (cell'.rpc transport n e' addr' signal').2 = cell')
    ∧ (lookupA (cell.direct_try transport now e i addr signal).cell.circuits addr).map
        CircuitBreaker.failures = some (b.failures + 2) := by
  refine ⟨?_, ?_, ?_⟩
  · intro cell' addr' signal' n e'
    cases hl : lookupA cell'.circuits addr' with
    | none => simp only [RheoCell.rpc, hl]
    | some c =>
        simp only [RheoCell.rpc, hl]
        split
        · rfl
        · split
          · simpa using updateA_keys cell'.circuits addr' CircuitBreaker.record_success
          · simpa using updateA_keys cell'.circuits addr' (·.record_failure n)
  · intro cell' addr' signal' n e' hnone
    simp only [RheoCell.rpc, hnone]
  · have h1 := rpc_failure_update transport cell addr
      (signal.record_step cell.id (if i = 0 then "P2P_ROUTE" else "P2P_FAILOVER") now)
      now e b hb hopen hfail
    simp only [RheoCell.direct_try, h1, with_latency_ok, with_latency_error, hfail, hloop]
    have h2 : lookupA (updateA cell.circuits addr (·.record_failure now)) addr
        = some (b.record_failure now) := by
      rw [lookupA_updateA_self, hb]
      rfl
    have h3 := entryRecordFailure_lookup
      { cell with circuits := updateA cell.circuits addr (·.record_failure now) }
      addr now (b.record_failure now) h2
    have h4 : ((b.record_failure now).record_failure now).failures = b.failures + 2 := by
      simp only [CircuitBreaker.record_failure]
      rw [Nat.mod_eq_of_lt (by omega), Nat.mod_eq_of_lt (by omega)]
    simp [h3, h4]

/-- C10 witness: a half-open breaker (1 failure, threshold 3) on `"p"` ends at
    3 failures after one failed direct try (recorded twice), and an RPC to an
    address with no breaker leaves the cell unchanged. -/
theorem rpc_breaker_spec_witness :
    (lookupA (cellHalf.direct_try transportFail 100 0 0 "p"
        (mkSignal "sigP" "x")).cell.circuits "p").map CircuitBreaker.failures = some 3
    ∧ (baseCell.rpc transportFail 50 0 "q" (mkSignal "sigQ" "x")).2 = baseCell := by
  have h := rpc_breaker_spec transportFail cellHalf "p" (mkSignal "sigP" "x") 100 0 0 bHalf
    rfl rfl rfl rfl (by decide)
  exact ⟨h.2.2, h.2.1 baseCell "q" (mkSignal "sigQ" "x") 50 0 rfl⟩

end OpenJaws
